import Mathlib

/-!
Verification of the simple-openai-chat session orchestration (src/main.py).

Shallow embedding of the chat application's pure logic:

* `count_tokens` — src/main.py lines 14-16, with the external tiktoken
  tokenizer abstracted as a function `count : String → String → Nat`
  (text, model-name) ↦ token count.  The Python signature carries the
  default argument `model="gpt-4"`; every call site in the script omits
  the model argument, so the default applies and we pass `"gpt-4"`
  explicitly at those call sites.
* `save_chat_history` / the upload handler — lines 20-34 and 190-196,
  with the JSON text layer (Python's `json` module) treated as a faithful
  external codec, so transcripts are modelled at the level of JSON values.
* the chat-turn handler — lines 133-174, with the remote completion API
  abstracted as the turn's outcome (a batch response or a stream of
  fragments, either of which may fail).
* the reset handler — lines 199-202.
-/

/-- A chat message: in the script these are the dicts
`{"role": ..., "content": ...}` stored in `st.session_state.messages`. -/
structure Message where
  role : String
  content : String
deriving DecidableEq, Repr

/-- The mutable session state of the script (`st.session_state`):
lines 47-60 establish the fields.  `temperature` is a float in the
source; it is only ever stored and forwarded, never computed with, so it
is represented as a rational. -/
structure ChatSession where
  messages : List Message
  model : String
  temperature : Rat
  max_tokens : Nat
  history_window : Nat
  api_key : String
  token_count : Nat
deriving DecidableEq, Repr

/-- `count_tokens` (src/main.py lines 14-16).  `count` abstracts
`len(tiktoken.encoding_for_model(model).encode(text))`. -/
def count_tokens (count : String → String → Nat) (text : String) (model : String) : Nat :=
  count text model

/-- The token recount `sum(count_tokens(m["content"]) for m in messages)`
performed at lines 174 and 194.  Both call sites omit the model
argument, so Python's default `model="gpt-4"` applies. -/
def sumTokens (count : String → String → Nat) (msgs : List Message) : Nat :=
  (msgs.map (fun m => count_tokens count m.content "gpt-4")).sum

/-- Python's `s.startswith(pre)` (used at line 155 as
`st.session_state.model.startswith("o1")`). -/
def pyStartswith (s pre : String) : Bool :=
  pre.data.isPrefixOf s.data

/-- Python's slice `xs[-w:]` for a nonnegative `w` (used at line 150 as
`st.session_state.messages[-st.session_state.history_window:]`):
for `w = 0` the slice `xs[-0:]` is `xs[0:] = xs`; for `w ≥ 1` it is the
last `min w xs.length` elements. -/
def pyLastSlice (w : Nat) (xs : List Message) : List Message :=
  if w = 0 then xs else xs.drop (xs.length - w)

/-- A request to the remote completion API: the keyword dict passed to
`client.chat.completions.create(**completion_params)`.  Optional fields
are absent (`none`) unless the script adds them. -/
structure Request where
  model : String
  messages : List Message
  temperature : Option Rat
  max_tokens : Option Nat
  stream : Option Bool
deriving DecidableEq, Repr

/-- The base `completion_params` dict (lines 146-152): only `model` and
`messages`, where `messages` is the last `history_window` slice of the
session history. -/
def completion_params (s : ChatSession) : Request :=
  { model := s.model
    messages := pyLastSlice s.history_window s.messages
    temperature := none
    max_tokens := none
    stream := none }

/-- The params actually dispatched (lines 154-168): for models whose
identifier starts with "o1" the base params are used unchanged; for all
other models `stream`, `temperature` and `max_tokens` are added. -/
def finalParams (s : ChatSession) : Request :=
  if pyStartswith s.model "o1" then completion_params s
  else
    { completion_params s with
        stream := some true
        temperature := some s.temperature
        max_tokens := some s.max_tokens }

/-- The ways a chat turn can fail, mirroring the uncaught Python
exceptions of lines 133-174:
* `missingClient` — with an empty API key, line 118 never ran, so the
  name `client` is undefined when line 158/168 evaluates (NameError);
* `requestFailed` — `client.chat.completions.create` raised (network or
  remote-service failure);
* `streamFailed` — the streaming iteration raised, either at the create
  call or in mid-stream (a fragment could not be decoded). -/
inductive TurnError
  | missingClient
  | requestFailed
  | streamFailed
deriving DecidableEq, Repr

/-- The streaming accumulation of lines 143 and 168-169:
`full_response = ""` then `full_response += (response.choices[0].delta.content or "")`
per fragment.  A fragment with no content (`None`) contributes the empty
string, exactly as Python's `or ""`. -/
def concatFrags (frags : List (Option String)) : String :=
  frags.foldl (fun acc f => acc ++ f.getD "") ""

/-- Outcome of one chat-turn script segment: the session state after the
run, the log of requests dispatched to the remote API (in order), and
the uncaught error, if any, that ended the run. -/
structure TurnResult where
  session : ChatSession
  requests : List Request
  error : Option TurnError
deriving DecidableEq, Repr

/-- The chat-turn handler, src/main.py lines 133-174, for one submitted
prompt.  The remote API is abstracted by the turn's environment:
`batch` is the outcome a blocking (non-streaming) create would have
(`Except.error ()` = the call raises), and `frags`/`streamOk` describe
the streaming iteration (the fragments delivered in order, and whether
the stream ended cleanly; `streamOk = false` covers both a create that
raises immediately, with `frags = []`, and a mid-stream failure).

Steps, in source order: append the user message (line 135); build
`completion_params` (146-152); branch on `model.startswith("o1")`
(155).  With an empty API key the name `client` is undefined (lines
117-120), so evaluating either branch raises before any request is
dispatched.  On success the assistant message is appended (line 173)
and `token_count` recomputed (line 174).  On failure the script run
aborts with the user message still in the history and nothing else
changed. -/
def promptTurn (count : String → String → Nat) (s : ChatSession) (prompt : String)
    (batch : Except Unit String) (frags : List (Option String)) (streamOk : Bool) :
    TurnResult :=
  let s1 : ChatSession := { s with messages := s.messages ++ [⟨"user", prompt⟩] }
  let params : Request := finalParams s1
  if s1.api_key = "" then
    { session := s1, requests := [], error := some TurnError.missingClient }
  else if pyStartswith s1.model "o1" then
    match batch with
    | Except.error _ =>
        { session := s1, requests := [params], error := some TurnError.requestFailed }
    | Except.ok text =>
        let s2 : ChatSession :=
          { s1 with messages := s1.messages ++ [⟨"assistant", text⟩] }
        { session := { s2 with token_count := sumTokens count s2.messages }
          requests := [params]
          error := none }
  else
    if streamOk then
      let s2 : ChatSession :=
        { s1 with messages := s1.messages ++ [⟨"assistant", concatFrags frags⟩] }
      { session := { s2 with token_count := sumTokens count s2.messages }
        requests := [params]
        error := none }
    else
      { session := s1, requests := [params], error := some TurnError.streamFailed }

/-- User-visible events of one script run, in the order the script emits
them. -/
inductive Event
  | configWarning
  | requestDispatched (r : Request)
  | errorRaised (e : TurnError)
deriving DecidableEq, Repr

/-- One script rerun handling a submitted prompt, as an ordered event
trace: the sidebar API-key warning (line 120) is emitted before the chat
input is processed (line 133 onward); then each dispatched request and,
last, any uncaught error of the turn. -/
def scriptEvents (count : String → String → Nat) (s : ChatSession) (prompt : String)
    (batch : Except Unit String) (frags : List (Option String)) (streamOk : Bool) :
    List Event :=
  let r := promptTurn count s prompt batch frags streamOk
  (if s.api_key = "" then [Event.configWarning] else [])
    ++ r.requests.map Event.requestDispatched
    ++ (match r.error with
        | some e => [Event.errorRaised e]
        | none => [])

/-- The reset handler, src/main.py lines 199-202. -/
def resetConversation (s : ChatSession) : ChatSession :=
  { s with messages := [], token_count := 0 }

/-- JSON values, the data `json.load`/`json.dump` exchange with the
file layer.  Objects keep key order (as Python dicts do). -/
inductive Json where
  | null : Json
  | bool : Bool → Json
  | num : Int → Json
  | str : String → Json
  | arr : List Json → Json
  | obj : List (String × Json) → Json

/-- Python `j[k]` for a JSON value: a field lookup that succeeds only on
an object that has the key (a missing key raises KeyError, a non-object
raises TypeError — both are `none` here). -/
def Json.getField : Json → String → Option Json
  | Json.obj fields, k => fields.lookup k
  | _, _ => none

/-- The JSON value of one stored message dict. -/
def Message.toJson (m : Message) : Json :=
  Json.obj [("role", Json.str m.role), ("content", Json.str m.content)]

/-- The JSON value `json.dump(st.session_state.messages, f)` writes
(line 27): the message list, losslessly. -/
def saveJson (msgs : List Message) : Json :=
  Json.arr (msgs.map Message.toJson)

/-- Reading a loaded JSON value back as one message: the dict must
carry string `role` and `content` fields. -/
def Json.toMessage (j : Json) : Option Message :=
  match j.getField "role", j.getField "content" with
  | some (Json.str r), some (Json.str c) => some ⟨r, c⟩
  | _, _ => none

/-- Reading a loaded JSON value back as a message sequence. -/
def Json.toMessages : Json → Option (List Message)
  | Json.arr ms => ms.mapM Json.toMessage
  | _ => none

/-- The token recount of line 194 run over a freshly loaded JSON value:
`sum(count_tokens(m["content"]) for m in st.session_state.messages)`.
It raises (= `none`) when the value is not a list, an element has no
`content` field, or the content is not a string (tiktoken's `encode`
rejects non-strings). -/
def jsonTokenSum (count : String → String → Nat) : Json → Option Nat
  | Json.arr ms =>
      ms.foldr
        (fun m acc =>
          match m.getField "content", acc with
          | some (Json.str c), some t => some (count_tokens count c "gpt-4" + t)
          | _, _ => none)
        (some 0)
  | _ => none

/-- The part of the session the upload handler touches:
`st.session_state.messages` (which, right after a load, holds whatever
JSON value the file contained — not necessarily a message list) and
`st.session_state.token_count`. -/
structure LoadState where
  messages : Json
  token_count : Nat

/-- The uncaught exception of the upload handler: the token recount of
line 194 raised (KeyError/TypeError) on a loaded value that is not a
valid message sequence. -/
inductive LoadError
  | recountFailed
deriving DecidableEq, Repr

/-- The upload handler, src/main.py lines 191-196, applied to a
document that `json.load` parsed successfully (a syntactically invalid
file raises in `json.load` itself, before line 193, and touches
nothing).  Line 193 assigns the loaded value to
`st.session_state.messages` with no validation; only then does line 194
recount tokens, and if that raises, the script run aborts with the
malformed messages already installed and `token_count` unchanged. -/
def uploadHandler (count : String → String → Nat) (doc : Json) (s : LoadState) :
    LoadState × Option LoadError :=
  let s1 : LoadState := { s with messages := doc }
  match jsonTokenSum count doc with
  | some n => ({ s1 with token_count := n }, none)
  | none => (s1, some LoadError.recountFailed)

/-- Python's `str.capitalize()`: first character titlecased, the rest
lowercased (used at line 32 on the role). -/
def pyCapitalize (s : String) : String :=
  match s.data with
  | [] => ""
  | c :: cs => String.mk (c.toUpper :: cs.map Char.toLower)

/-- UTF-8 encoding of one character, as a list of byte values: what
Python's `str.encode()` produces per code point. -/
def utf8Char (c : Char) : List Nat :=
  if c.toNat < 0x80 then [c.toNat]
  else if c.toNat < 0x800 then [0xC0 + c.toNat / 0x40, 0x80 + c.toNat % 0x40]
  else if c.toNat < 0x10000 then
    [0xE0 + c.toNat / 0x1000, 0x80 + c.toNat / 0x40 % 0x40, 0x80 + c.toNat % 0x40]
  else
    [0xF0 + c.toNat / 0x40000, 0x80 + c.toNat / 0x1000 % 0x40,
      0x80 + c.toNat / 0x40 % 0x40, 0x80 + c.toNat % 0x40]

/-- Python's `str.encode()`: the UTF-8 bytes of the string. -/
def utf8Bytes (s : String) : List Nat :=
  (s.data.map utf8Char).flatten

/-- The quote character Python's `repr` picks for a bytes object: a
single quote, unless the bytes contain one and no double quote. -/
def pyBytesQuote (bs : List Nat) : Nat :=
  if bs.contains 39 && !bs.contains 34 then 34 else 39

/-- Lowercase hex digit. -/
def hexDigit (n : Nat) : Char :=
  if n < 10 then Char.ofNat (48 + n) else Char.ofNat (87 + n)

/-- How Python's bytes `repr` renders one byte, given the chosen quote:
backslash and the quote are escaped, tab/newline/carriage-return use
their short escapes, printable ASCII is literal, and everything else
becomes a `\xhh` escape. -/
def pyByteRepr (q : Nat) (b : Nat) : String :=
  if b = 92 then "\\\\"
  else if b = q then String.mk [Char.ofNat 92, Char.ofNat q]
  else if b = 9 then "\\t"
  else if b = 10 then "\\n"
  else if b = 13 then "\\r"
  else if 32 ≤ b && b ≤ 126 then String.mk [Char.ofNat b]
  else String.mk [Char.ofNat 92, Char.ofNat 120, hexDigit (b / 16), hexDigit (b % 16)]

/-- Python's `repr` of a bytes object: `b` + quote + escaped bytes +
quote.  This is what the f-string at line 32 interpolates for
`message['content'].encode()`. -/
def pyBytesRepr (bs : List Nat) : String :=
  let q := pyBytesQuote bs
  "b" ++ String.mk [Char.ofNat q] ++ String.join (bs.map (pyByteRepr q)) ++
    String.mk [Char.ofNat q]

/-- The line written to the Markdown artifact for one message
(line 32): `f"**{message['role'].capitalize()}:** {message['content'].encode()}\n\n"`.
The f-string formats the bytes object via its `repr`. -/
def mdLine (m : Message) : String :=
  "**" ++ pyCapitalize m.role ++ ":** " ++ pyBytesRepr (utf8Bytes m.content) ++ "\n\n"

/-- `save_chat_history` (src/main.py lines 20-34), at the level of file
contents: the JSON artifact is the dumped message list (line 27), the
Markdown artifact is the concatenation of the per-message lines
(lines 31-32).  The timestamped file names are presentation detail. -/
def save_chat_history (msgs : List Message) : Json × String :=
  (saveJson msgs, String.join (msgs.map mdLine))

/-! ## Sample states used by witnesses -/

/-- A session with three messages and a history window of 2. -/
def sesWindow : ChatSession :=
  { messages := [⟨"user", "a"⟩, ⟨"assistant", "b"⟩, ⟨"user", "c"⟩]
    model := "gpt-4o-mini", temperature := 0, max_tokens := 4096
    history_window := 2, api_key := "k", token_count := 0 }

/-- A session configured with a reasoning-family model and nonzero
sampling parameters. -/
def sesO1 : ChatSession :=
  { messages := [⟨"user", "a"⟩], model := "o1-mini", temperature := 1
    max_tokens := 4096, history_window := 10, api_key := "k", token_count := 0 }

/-- A streaming-family session with an API key set. -/
def sesStream : ChatSession :=
  { messages := [], model := "gpt-4o-mini", temperature := 0, max_tokens := 4096
    history_window := 10, api_key := "k", token_count := 0 }

/-- A session with the API key left empty. -/
def sesNoKey : ChatSession :=
  { messages := [], model := "gpt-4o-mini", temperature := 0, max_tokens := 4096
    history_window := 10, api_key := "", token_count := 0 }

/-! ## C1 — request context is the last history-window slice -/

/-- C1: for every session state whose history window is at least 1 (the
slider's range is 1-20), the request context built by
`completion_params` is the full history when it has at most
`history_window` messages, and exactly the last `history_window`
messages otherwise. -/
theorem completion_context_is_last_window (s : ChatSession)
    (hw : 1 ≤ s.history_window) :
    (completion_params s).messages
      = if s.messages.length ≤ s.history_window then s.messages
        else (s.messages.reverse.take s.history_window).reverse := by
  show pyLastSlice s.history_window s.messages = _
  unfold pyLastSlice
  rw [if_neg (by omega)]
  by_cases hle : s.messages.length ≤ s.history_window
  · rw [if_pos hle, Nat.sub_eq_zero_of_le hle, List.drop_zero]
  · rw [if_neg hle, ← List.rtake_eq_reverse_take_reverse, List.rtake]

/-- C1 witness: on a concrete session with 3 messages and window 2, the
request context is exactly the last 2 messages. -/
theorem completion_context_is_last_window_witness :
    (completion_params sesWindow).messages = [⟨"assistant", "b"⟩, ⟨"user", "c"⟩] :=
  (completion_context_is_last_window sesWindow (by decide)).trans (by decide)

/-! ## C2 — reasoning-family requests carry only model and messages -/

/-- C2: for every session whose model identifier starts with "o1" (the
non-streaming, reasoning family), the dispatched request consists of the
base params only — its `temperature`, `max_tokens` and `stream` fields
are absent — regardless of the configured temperature and max_tokens. -/
theorem o1_request_has_only_model_and_messages (s : ChatSession)
    (h : pyStartswith s.model "o1" = true) :
    (finalParams s).temperature = none
    ∧ (finalParams s).max_tokens = none
    ∧ (finalParams s).stream = none
    ∧ (finalParams s).model = s.model
    ∧ (finalParams s).messages = (completion_params s).messages := by
  simp [finalParams, h, completion_params]

/-- C2 witness: the o1-mini session with temperature 1 and max_tokens
4096 configured still dispatches a request with no temperature,
max_tokens or stream field. -/
theorem o1_request_has_only_model_and_messages_witness :
    (finalParams sesO1).temperature = none
    ∧ (finalParams sesO1).max_tokens = none
    ∧ (finalParams sesO1).stream = none
    ∧ (finalParams sesO1).model = sesO1.model
    ∧ (finalParams sesO1).messages = (completion_params sesO1).messages :=
  o1_request_has_only_model_and_messages sesO1 (by decide)

/-! ## C3 — the committed assistant text is the fragment concatenation -/

/-- C3: for every streaming-family turn (model not starting with "o1",
API key present) that ends cleanly, the assistant message committed to
the history is exactly the concatenation, in arrival order, of the
streamed fragment texts (a fragment with no content contributes the
empty string, as Python's `or ""`). -/
theorem stream_commit_is_fragment_concat (count : String → String → Nat)
    (s : ChatSession) (p : String) (batch : Except Unit String)
    (frags : List (Option String))
    (h1 : pyStartswith s.model "o1" = false) (h2 : s.api_key ≠ "") :
    (promptTurn count s p batch frags true).session.messages
      = s.messages
          ++ [⟨"user", p⟩,
              ⟨"assistant", String.join (frags.map (fun f => f.getD ""))⟩] := by
  have hjoin : concatFrags frags = String.join (frags.map (fun f => f.getD "")) := by
    show _ = (frags.map (fun f => f.getD "")).foldl (fun r s => r ++ s) ""
    rw [List.foldl_map]
    rfl
  simp [promptTurn, h1, h2, hjoin]

/-- C3 witness: a concrete stream of three fragments (one empty) commits
the assistant message "ab". -/
theorem stream_commit_is_fragment_concat_witness :
    (promptTurn (fun t _ => t.length) sesStream "hi" (Except.ok "y")
        [some "a", none, some "b"] true).session.messages
      = sesStream.messages
          ++ [⟨"user", "hi"⟩,
              ⟨"assistant",
                String.join ([some "a", none, some "b"].map
                  (fun f => f.getD ""))⟩] :=
  stream_commit_is_fragment_concat (fun t _ => t.length) sesStream "hi"
    (Except.ok "y") [some "a", none, some "b"] (by decide) (by decide)

/-! ## C9 — reset clears the session -/

/-- C9: for every prior session state, the reset handler sets the
message history to the empty sequence and the token count to 0. -/
theorem reset_clears_messages_and_tokens (s : ChatSession) :
    (resetConversation s).messages = [] ∧ (resetConversation s).token_count = 0 :=
  ⟨rfl, rfl⟩

/-! ## C4 — what model the token recount actually uses -/

/-- A tokenizer whose counts differ between model families, as tiktoken
encodings do (cl100k for gpt-4 versus o200k for gpt-4o). -/
def cntModelSensitive : String → String → Nat :=
  fun t m => if m = "gpt-4" then t.length else 2 * t.length

/-- C4 counterexample: with a model-sensitive tokenizer and the session
model "gpt-4o-mini", the token count recomputed after the turn's appends
is 4 — the per-message counts taken at the default model "gpt-4" — while
the sum of per-message counts at the session's configured model is 8.
The two call sites of `count_tokens` (lines 174 and 194) omit the model
argument, so the claim's "where model is the session's configured model
identifier" fails. -/
theorem token_count_ignores_configured_model :
    (promptTurn cntModelSensitive sesStream "hi" (Except.ok "")
        [some "ok"] true).session.token_count
      ≠ (((promptTurn cntModelSensitive sesStream "hi" (Except.ok "")
            [some "ok"] true).session.messages).map
          (fun m => count_tokens cntModelSensitive m.content
            (promptTurn cntModelSensitive sesStream "hi" (Except.ok "")
              [some "ok"] true).session.model)).sum := by
  decide

/-- C4 amended: after every turn that completes without error, the
session's token count equals the sum over all messages of
`count_tokens` at the fixed default model "gpt-4" — not at the session's
configured model, which the recount never consults. -/
theorem token_count_is_sum_at_default_model (count : String → String → Nat)
    (s : ChatSession) (p : String) (batch : Except Unit String)
    (frags : List (Option String)) (streamOk : Bool)
    (h : (promptTurn count s p batch frags streamOk).error = none) :
    (promptTurn count s p batch frags streamOk).session.token_count
      = (((promptTurn count s p batch frags streamOk).session.messages).map
          (fun m => count_tokens count m.content "gpt-4")).sum := by
  unfold promptTurn at h ⊢
  by_cases hk : s.api_key = ""
  · simp [hk] at h
  · by_cases ho : pyStartswith s.model "o1" = true
    · cases batch with
      | error e => simp [hk, ho] at h
      | ok text => simp [hk, ho, sumTokens]

    · cases streamOk with
      | false => simp [hk, ho] at h
      | true => simp [hk, ho, sumTokens]

/-- C4 amended witness: a concrete successful streaming turn with a
length tokenizer ends with token count 4 = |"hi"| + |"ok"|, the sum of
the per-message counts at "gpt-4". -/
theorem token_count_is_sum_at_default_model_witness :
    (promptTurn (fun t _ => t.length) sesStream "hi" (Except.ok "")
        [some "ok"] true).session.token_count
      = (((promptTurn (fun t _ => t.length) sesStream "hi" (Except.ok "")
            [some "ok"] true).session.messages).map
          (fun m => count_tokens (fun t _ => t.length) m.content "gpt-4")).sum :=
  token_count_is_sum_at_default_model (fun t _ => t.length) sesStream "hi"
    (Except.ok "") [some "ok"] true (by decide)

/-! ## C7 — a failed request aborts the turn cleanly -/

/-- C7: for every turn whose dispatched request fails — a reasoning-family
blocking call that raises, or a streaming iteration that raises at the
create call or mid-stream — no assistant message is committed, the
just-appended user message remains at the end of the history, exactly
one request was dispatched (no automatic retry), and the failure is
surfaced as an error. -/
theorem failed_turn_commits_nothing (count : String → String → Nat)
    (s : ChatSession) (p : String) (batch : Except Unit String)
    (frags : List (Option String)) (streamOk : Bool)
    (hk : s.api_key ≠ "")
    (hfail :
      (pyStartswith s.model "o1" = true ∧ batch = Except.error ())
      ∨ (pyStartswith s.model "o1" = false ∧ streamOk = false)) :
    (promptTurn count s p batch frags streamOk).session.messages
        = s.messages ++ [⟨"user", p⟩]
    ∧ (promptTurn count s p batch frags streamOk).requests.length = 1
    ∧ (promptTurn count s p batch frags streamOk).error ≠ none := by
  rcases hfail with ⟨ho, hb⟩ | ⟨ho, hs⟩
  · subst hb
    simp [promptTurn, hk, ho]
  · subst hs
    simp [promptTurn, hk, ho]

/-- C7 witness: a concrete streaming turn that fails after one fragment
leaves only the user message appended, with one dispatched request and a
surfaced error. -/
theorem failed_turn_commits_nothing_witness :
    (promptTurn (fun t _ => t.length) sesStream "hi" (Except.ok "y")
        [some "pa"] false).session.messages
        = sesStream.messages ++ [⟨"user", "hi"⟩]
    ∧ (promptTurn (fun t _ => t.length) sesStream "hi" (Except.ok "y")
        [some "pa"] false).requests.length = 1
    ∧ (promptTurn (fun t _ => t.length) sesStream "hi" (Except.ok "y")
        [some "pa"] false).error ≠ none :=
  failed_turn_commits_nothing (fun t _ => t.length) sesStream "hi"
    (Except.ok "y") [some "pa"] false (by decide) (Or.inr ⟨by decide, rfl⟩)

/-! ## C8 — an empty API key blocks the request -/

/-- C8: for every prompt submitted while the API key is empty, the
script run's event trace is exactly the sidebar configuration warning
(emitted before the chat input is processed) followed by the uncaught
missing-client error: no request is ever dispatched to the remote API. -/
theorem empty_key_dispatches_no_request (count : String → String → Nat)
    (s : ChatSession) (p : String) (batch : Except Unit String)
    (frags : List (Option String)) (streamOk : Bool)
    (hk : s.api_key = "") :
    scriptEvents count s p batch frags streamOk
      = [Event.configWarning, Event.errorRaised TurnError.missingClient] := by
  simp [scriptEvents, promptTurn, hk]

/-- C8 witness: the keyless session's run produces only the warning and
the missing-client error. -/
theorem empty_key_dispatches_no_request_witness :
    scriptEvents (fun t _ => t.length) sesNoKey "hi" (Except.ok "y") [] true
      = [Event.configWarning, Event.errorRaised TurnError.missingClient] :=
  empty_key_dispatches_no_request (fun t _ => t.length) sesNoKey "hi"
    (Except.ok "y") [] true (by decide)

/-! ## C5 — loading a malformed transcript -/

/-- A syntactically valid JSON document that is not a valid message
sequence: its single object has no content field. -/
def malformedDoc : Json := Json.arr [Json.obj [("role", Json.str "user")]]

/-- A session holding one well-formed message before the load. -/
def loadPrior : LoadState :=
  { messages := saveJson [⟨"user", "hi"⟩], token_count := 2 }

/-- C5 counterexample: loading the valid-JSON-but-malformed document
(an object missing `content`) does NOT leave the session's messages
unchanged — line 193 installs the loaded value before any validation,
and only then does the recount of line 194 raise.  The error is an
uncaught KeyError, not a reported FormatError. -/
theorem malformed_load_replaces_messages :
    (uploadHandler (fun t _ => t.length) malformedDoc loadPrior).1.messages
        ≠ loadPrior.messages
    ∧ (uploadHandler (fun t _ => t.length) malformedDoc loadPrior).2
        = some LoadError.recountFailed := by
  constructor
  · have hred :
        (uploadHandler (fun t _ => t.length) malformedDoc loadPrior).1.messages
          = malformedDoc := rfl
    rw [hred]
    intro h
    simp [malformedDoc, loadPrior, saveJson, Message.toJson] at h
  · rfl

/-- C5 amended: loading any syntactically valid JSON document replaces
the session's messages with the loaded value before any validation;
when the document is not a valid message sequence the token recount
then fails, and the session is left holding the malformed messages with
its previous token count — a partial replacement, with an uncaught
error instead of a reported FormatError. -/
theorem invalid_load_is_partial_replacement (count : String → String → Nat)
    (doc : Json) (s : LoadState)
    (h : jsonTokenSum count doc = none) :
    uploadHandler count doc s
      = ({ messages := doc, token_count := s.token_count },
          some LoadError.recountFailed) := by
  simp [uploadHandler, h]

/-- C5 amended witness: at the concrete malformed document the recount
fails and the handler installs the document while keeping the old token
count. -/
theorem invalid_load_is_partial_replacement_witness :
    jsonTokenSum (fun t _ => t.length) malformedDoc = none
    ∧ uploadHandler (fun t _ => t.length) malformedDoc loadPrior
        = ({ messages := malformedDoc, token_count := loadPrior.token_count },
            some LoadError.recountFailed) :=
  ⟨rfl, invalid_load_is_partial_replacement (fun t _ => t.length) malformedDoc
    loadPrior rfl⟩

/-! ## C6 — structured save/load round trip -/

/-- Decoding the JSON of one message recovers it. -/
theorem toMessage_toJson (m : Message) :
    Json.toMessage (Message.toJson m) = some m := rfl

/-- Decoding the dumped message list recovers the whole sequence. -/
theorem toMessages_saveJson (msgs : List Message) :
    Json.toMessages (saveJson msgs) = some msgs := by
  show (msgs.map Message.toJson).mapM Json.toMessage = some msgs
  induction msgs with
  | nil => rfl
  | cons m ms ih =>
      rw [List.map_cons, List.mapM_cons, toMessage_toJson, ih]
      rfl

/-- The recount of line 194 succeeds on a dumped message list and yields
the same total as the in-session recount of line 174. -/
theorem jsonTokenSum_saveJson (count : String → String → Nat)
    (msgs : List Message) :
    jsonTokenSum count (saveJson msgs) = some (sumTokens count msgs) := by
  induction msgs with
  | nil => rfl
  | cons m ms ih =>
      have harr : ∀ l : List Json,
          jsonTokenSum count (Json.arr l)
            = l.foldr
                (fun j acc =>
                  match j.getField "content", acc with
                  | some (Json.str c), some t =>
                      some (count_tokens count c "gpt-4" + t)
                  | _, _ => none)
                (some 0) := fun l => rfl
      rw [saveJson] at ih ⊢
      rw [List.map_cons, harr, List.foldr_cons, ← harr, ih]
      show some (count_tokens count m.content "gpt-4" + sumTokens count ms)
        = some (sumTokens count (m :: ms))
      simp [sumTokens, count_tokens]

/-- C6: for every message sequence, including the empty one, saving the
structured (JSON) transcript and loading it back yields exactly the
saved sequence — role and content preserved, order preserved — and the
upload handler accepts it, installing the saved value and the freshly
recomputed token total with no error. -/
theorem transcript_roundtrip (count : String → String → Nat)
    (msgs : List Message) (s : LoadState) :
    Json.toMessages (saveJson msgs) = some msgs
    ∧ uploadHandler count (saveJson msgs) s
        = ({ messages := saveJson msgs, token_count := sumTokens count msgs },
            none) := by
  refine ⟨toMessages_saveJson msgs, ?_⟩
  simp [uploadHandler, jsonTokenSum_saveJson]

/-! ## C10 — the Markdown export renders the bytes repr, not the text -/

/-- Folding string concatenation sums the lengths. -/
theorem length_foldl_append (l : List String) (init : String) :
    (l.foldl (fun r s => r ++ s) init).length
      = init.length + (l.map String.length).sum := by
  induction l generalizing init with
  | nil => simp
  | cons x xs ih =>
      rw [List.foldl_cons, ih, String.length_append, List.map_cons, List.sum_cons]
      omega

/-- Every byte renders as at least one character. -/
theorem one_le_pyByteRepr_length (q b : Nat) : 1 ≤ (pyByteRepr q b).length := by
  unfold pyByteRepr
  split_ifs <;> first | decide | simp [String.length]

/-- The bytes repr is at least three characters longer than the byte
count: the `b`, the two quotes, and one or more characters per byte. -/
theorem pyBytesRepr_length (bs : List Nat) :
    bs.length + 3 ≤ (pyBytesRepr bs).length := by
  unfold pyBytesRepr
  show bs.length + 3
    ≤ ((("b" ++ String.mk [Char.ofNat (pyBytesQuote bs)])
        ++ String.join (bs.map (pyByteRepr (pyBytesQuote bs))))
        ++ String.mk [Char.ofNat (pyBytesQuote bs)]).length
  rw [String.length_append, String.length_append, String.length_append]
  have hjoin : (String.join (bs.map (pyByteRepr (pyBytesQuote bs)))).length
      = ((bs.map (pyByteRepr (pyBytesQuote bs))).map String.length).sum := by
    simpa using length_foldl_append (bs.map (pyByteRepr (pyBytesQuote bs))) ""
  have hsum : bs.length
      ≤ ((bs.map (pyByteRepr (pyBytesQuote bs))).map String.length).sum := by
    have := List.length_le_sum_of_one_le
      ((bs.map (pyByteRepr (pyBytesQuote bs))).map String.length)
      (by
        intro i hi
        simp only [List.mem_map] at hi
        obtain ⟨t, ⟨b, _, rfl⟩, rfl⟩ := hi
        exact one_le_pyByteRepr_length _ _)
    simpa using this
  have hb : ("b" : String).length = 1 := rfl
  have hq : (String.mk [Char.ofNat (pyBytesQuote bs)]).length = 1 := rfl
  omega

/-- Every character encodes to at least one byte. -/
theorem one_le_utf8Char_length (c : Char) : 1 ≤ (utf8Char c).length := by
  unfold utf8Char
  split_ifs <;> simp

/-- The UTF-8 byte string is at least as long as the character string. -/
theorem utf8Bytes_length (s : String) : s.length ≤ (utf8Bytes s).length := by
  unfold utf8Bytes
  rw [List.length_flatten]
  have := List.length_le_sum_of_one_le ((s.data.map utf8Char).map List.length)
    (by
      intro i hi
      simp only [List.mem_map] at hi
      obtain ⟨t, ⟨c, _, rfl⟩, rfl⟩ := hi
      exact one_le_utf8Char_length c)
  rw [show s.length = s.data.length from rfl]
  simpa using this

/-- The bytes repr of a string's encoding is never the string itself:
it is strictly longer. -/
theorem pyBytesRepr_ne_content (s : String) :
    pyBytesRepr (utf8Bytes s) ≠ s := by
  intro h
  have h1 := congrArg String.length h
  have h2 := pyBytesRepr_length (utf8Bytes s)
  have h3 := utf8Bytes_length s
  omega

/-- C10: for every message list and message, `save_chat_history` writes
the JSON artifact as the untransformed dumped message list, while each
Markdown line is the bold capitalized role followed by the Python bytes
repr of the UTF-8-encoded content — which is never the raw content
text. -/
theorem markdown_line_renders_bytes_repr (msgs : List Message) (m : Message) :
    (save_chat_history msgs).1 = saveJson msgs
    ∧ (save_chat_history msgs).2 = String.join (msgs.map mdLine)
    ∧ mdLine m
        = "**" ++ pyCapitalize m.role ++ ":** "
            ++ pyBytesRepr (utf8Bytes m.content) ++ "\n\n"
    ∧ pyBytesRepr (utf8Bytes m.content) ≠ m.content := by
  exact ⟨rfl, rfl, rfl, pyBytesRepr_ne_content m.content⟩
